import Mathlib

/-!
Shallow embedding of the customer-support orchestration core of the
basic-RAG-application repository: classifier fallback (classifier_agent.py),
routing and node logic (langgraph_workflow.py), escalation handler
(escalation_agent.py), RAG responder (rag_responder.py), and the HTTP chat
operation (api_server.py).  External capabilities (the LLM classification
chain, the vector-store retriever, text generation) are modelled as oracle
functions returning `Except`, so that the error-handling paths of the source
are represented exactly.  Confidence scores are modelled as rationals.
-/

namespace RAGApp

/-- The closed category set from `QueryClassification` in classifier_agent.py
(`Literal["products", "returns", "general", "unhandled"]`). -/
inductive Category where
  | products
  | returns
  | general
  | unhandled
deriving DecidableEq

/-- The structured output schema `QueryClassification` (classifier_agent.py):
category, confidence in [0,1], reasoning. -/
structure QueryClassification where
  category : Category
  confidence : ℚ
  reasoning : String
deriving DecidableEq

/-- The dictionary returned by `ClassifierAgent.classify`. -/
structure Classification where
  category : Category
  confidence : ℚ
  reasoning : String
deriving DecidableEq

/-- `ClassifierAgent.classify` (classifier_agent.py lines 87-111).  The one
`self.chain.invoke({"query": query})` call inside the `try` block is modelled
by applying the oracle `chain` to the query; `calls` counts how many backend
attempts have been made, and is incremented once per call (the source has a
single call site and no retry loop).  On success the three fields of the
structured result are copied; on any backend error the fallback dictionary
`category=unhandled, confidence=0.0, reasoning="Classification error: <e>"`
is returned instead of propagating the error. -/
def ClassifierAgent.classify (chain : String → Except String QueryClassification)
    (query : String) (calls : Nat) : Classification × Nat :=
  match chain query with
  | .ok result => (⟨result.category, result.confidence, result.reasoning⟩, calls + 1)
  | .error e => (⟨.unhandled, 0, "Classification error: " ++ e⟩, calls + 1)

/-- The escalation log dictionary built in `EscalationAgent.escalate`
(escalation_agent.py lines 64-71): exactly the six keys
timestamp, query, category, confidence, reasoning, status. -/
structure EscalationLog where
  timestamp : String
  query : String
  category : Category
  confidence : ℚ
  reasoning : String
  status : String
deriving DecidableEq

/-- The `contact_info` sub-dictionary of an escalation result. -/
structure ContactInfo where
  email : String
  hours : String
  response_time : String
deriving DecidableEq

/-- Result dictionary of `EscalationAgent.escalate`. -/
structure EscalateResult where
  response : String
  requires_escalation : Bool
  escalation_log : EscalationLog
  contact_info : ContactInfo
deriving DecidableEq

/-- Result dictionary of `EscalationAgent.generate_clarification_request`. -/
structure ClarifyResult where
  response : String
  requires_escalation : Bool
  needs_clarification : Bool
deriving DecidableEq

/-- The constant fields set in `EscalationAgent.__init__`. -/
structure EscalationAgent where
  support_email : String
  support_hours : String
  response_time : String

/-- The singleton escalation agent (escalation_agent.py lines 12-16). -/
def escalationAgent : EscalationAgent :=
  ⟨"support@techgear.com", "Mon-Sat, 9AM-6PM IST", "24 hours"⟩

/-- The reason selection at the top of `EscalationAgent.escalate`
(escalation_agent.py lines 33-39): `category == "unhandled"` first, then
`confidence < 0.7`, else specialized support. -/
def EscalationAgent.escalationReason (category : Category) (confidence : ℚ) : String :=
  if category = Category.unhandled then
    "This query requires human assistance"
  else if confidence < mkRat 7 10 then
    "The query needs clarification"
  else
    "This request needs specialized support"

/-- The f-string body of the escalation message (escalation_agent.py lines
42-61), as a function of the interpolated query and reason; the contact
fields come from the agent. -/
def EscalationAgent.escalateResponse (a : EscalationAgent)
    (query escalation_reason : String) : String :=
  "I apologize, but I need to connect you with a human support agent for this request.\n\n**Your Query:** \"" ++ query
    ++ "\"\n\n**Reason:** " ++ escalation_reason
    ++ "\n\nOur support team is here to help you with:\n• Complex technical issues\n• Account-specific inquiries  \n• Special requests and customizations\n• Detailed product consultations\n\n**Contact Information:**\n📧 **Email:** "
    ++ a.support_email ++ "\n⏰ **Hours:** " ++ a.support_hours
    ++ "\n⏱️ **Response Time:** Within " ++ a.response_time
    ++ "\n\nA support agent will review your request and respond as soon as possible.\n\nThank you for your patience!"

/-- `EscalationAgent.escalate` (escalation_agent.py lines 18-82).  `now`
stands for the `datetime.now().isoformat()` timestamp. -/
def EscalationAgent.escalate (a : EscalationAgent) (now : String) (query : String)
    (category : Category) (confidence : ℚ) (reasoning : String) : EscalateResult :=
  let escalation_reason := EscalationAgent.escalationReason category confidence
  { response := a.escalateResponse query escalation_reason
    requires_escalation := true
    escalation_log :=
      { timestamp := now, query := query, category := category
        confidence := confidence, reasoning := reasoning, status := "escalated" }
    contact_info := ⟨a.support_email, a.support_hours, a.response_time⟩ }

/-- `EscalationAgent.generate_clarification_request` (escalation_agent.py
lines 84-115). -/
def EscalationAgent.generate_clarification_request (a : EscalationAgent)
    (query : String) : ClarifyResult :=
  let response :=
    "Thank you for contacting TechGear Electronics!\n\nI\x27d be happy to help, but I need a bit more information to provide you with the best answer.\n\n**Your Query:** \"" ++ query
      ++ "\"\n\nCould you please provide more details about:\n• What product or service you\x27re asking about?\n• What specific information do you need?\n• Is this related to a purchase, return, or general inquiry?\n\nAlternatively, you can:\n📧 **Email us:** "
      ++ a.support_email ++ " with detailed information\n⏰ **Available:** " ++ a.support_hours
      ++ "\n\nThank you for your understanding!"
  { response := response, requires_escalation := false, needs_clarification := true }

/-- The retriever is built with `search_kwargs={"k": 4}` (rag_responder.py
lines 39-42). -/
def RAG_K : Nat := 4

/-- The three prompt templates available in `self.prompts`
(rag_responder.py lines 52-85). -/
inductive PromptKind where
  | products
  | returns
  | general
deriving DecidableEq

/-- `self.prompts.get(category, self.prompts["general"])` (rag_responder.py
line 104): a category outside the dictionary keys falls back to the
general template. -/
def RAGResponder.selectPrompt (category : Category) : PromptKind :=
  match category with
  | .products => .products
  | .returns => .returns
  | .general => .general
  | .unhandled => .general

/-- `RAGResponder._format_docs` (rag_responder.py lines 87-89). -/
def formatDocs (docs : List String) : String :=
  String.intercalate "\n\n" docs

/-- Result dictionary of `RAGResponder.respond`; `error` is `some e` only on
the failure path, where the source adds an `"error"` key. -/
structure RespondResult where
  response : String
  retrieved_docs : List String
  num_docs : Nat
  success : Bool
  error : Option String
deriving DecidableEq

/-- The body of the `try` block of `RAGResponder.respond` (rag_responder.py
lines 102-121): `docs = self.retriever.invoke(query)`, then
`rag_chain.invoke(query)` which itself pipes the retriever into
`_format_docs` to build the context and calls the LLM on (context, query)
with the selected prompt.  Any failure of either capability surfaces as an
`Except.error`. -/
def respondAttempt (retrieve : String → Nat → Except String (List String))
    (generate : PromptKind → String → String → Except String String)
    (query : String) (category : Category) : Except String (List String × String) :=
  match retrieve query RAG_K with
  | .error e => .error e
  | .ok docs =>
    match retrieve query RAG_K with
    | .error e => .error e
    | .ok chainDocs =>
      match generate (RAGResponder.selectPrompt category) (formatDocs chainDocs) query with
      | .error e => .error e
      | .ok response => .ok (docs, response)

/-- The fixed apology returned on the failure path of `RAGResponder.respond`
(rag_responder.py line 132). -/
def ragApology : String :=
  "I apologize, but I encountered an error processing your request. Please contact support@techgear.com"

/-- `RAGResponder.respond` (rag_responder.py lines 91-137).  On success the
retrieved documents are previewed as `doc.page_content[:200] + "..."`; on
any exception the fixed apology is returned with empty docs and the error
string retained under `error`. -/
def RAGResponder.respond (retrieve : String → Nat → Except String (List String))
    (generate : PromptKind → String → String → Except String String)
    (query : String) (category : Category) : RespondResult :=
  match respondAttempt retrieve generate query category with
  | .ok (docs, response) =>
    { response := response
      retrieved_docs := docs.map (fun doc => doc.take 200 ++ "...")
      num_docs := docs.length
      success := true
      error := none }
  | .error e =>
    { response := ragApology
      retrieved_docs := []
      num_docs := 0
      success := false
      error := some e }

/-- The `WorkflowState` TypedDict (langgraph_workflow.py lines 19-37).
`escalation_log` is a dictionary that is `{}` until the escalation node
fills it; the empty dictionary is modelled as `none`. -/
structure WorkflowState where
  query : String
  category : Category
  confidence : ℚ
  reasoning : String
  retrieved_docs : List String
  context : String
  response : String
  node_executed : String
  requires_escalation : Bool
  escalation_log : Option EscalationLog
deriving DecidableEq

/-- The initial state built in `process_query` (langgraph_workflow.py lines
199-210). -/
def initialState (query : String) : WorkflowState :=
  { query := query
    category := .general
    confidence := 0
    reasoning := ""
    retrieved_docs := []
    context := ""
    response := ""
    node_executed := ""
    requires_escalation := false
    escalation_log := none }

/-- `CustomerSupportWorkflow._classifier_node` (langgraph_workflow.py lines
96-112): classify the query and merge category/confidence/reasoning into the
state. -/
def classifier_node (chain : String → Except String QueryClassification)
    (state : WorkflowState) : WorkflowState :=
  let result := (ClassifierAgent.classify chain state.query 0).1
  { state with
    category := result.category
    confidence := result.confidence
    reasoning := result.reasoning
    node_executed := "classifier" }

/-- `CustomerSupportWorkflow._rag_responder_node` (langgraph_workflow.py
lines 114-132). -/
def rag_responder_node (retrieve : String → Nat → Except String (List String))
    (generate : PromptKind → String → String → Except String String)
    (state : WorkflowState) : WorkflowState :=
  let result := RAGResponder.respond retrieve generate state.query state.category
  { state with
    response := result.response
    retrieved_docs := result.retrieved_docs
    node_executed := "rag_responder"
    requires_escalation := false }

/-- The common shape of the two escalation-handler result dictionaries, as
consumed by `_escalation_node` through `result["response"]`,
`result.get("requires_escalation", True)` and
`result.get("escalation_log", {})`: missing keys are `none`. -/
structure HandlerResult where
  response : String
  requires_escalation : Option Bool
  needs_clarification : Option Bool
  escalation_log : Option EscalationLog
deriving DecidableEq

/-- View an `escalate` result as a handler dictionary (it has an
`escalation_log` key and no `needs_clarification` key). -/
def EscalateResult.toHandler (r : EscalateResult) : HandlerResult :=
  ⟨r.response, some r.requires_escalation, none, some r.escalation_log⟩

/-- View a clarification result as a handler dictionary (it has a
`needs_clarification` key and no `escalation_log` key). -/
def ClarifyResult.toHandler (r : ClarifyResult) : HandlerResult :=
  ⟨r.response, some r.requires_escalation, some r.needs_clarification, none⟩

/-- The state update at the end of `_escalation_node` (langgraph_workflow.py
lines 151-157): copy `response`, set `node_executed`, read
`requires_escalation` with default `True` and `escalation_log` with default
`{}`; every other key of the result (such as `needs_clarification`) is
dropped. -/
def applyEscalationResult (state : WorkflowState) (result : HandlerResult) : WorkflowState :=
  { state with
    response := result.response
    node_executed := "escalation"
    requires_escalation := result.requires_escalation.getD true
    escalation_log := result.escalation_log }

/-- `CustomerSupportWorkflow._escalation_node` (langgraph_workflow.py lines
134-157): low confidence on a valid category asks for clarification,
otherwise the query is escalated to a human. -/
def escalation_node (now : String) (state : WorkflowState) : WorkflowState :=
  if state.confidence < mkRat 1 2 ∧ state.category ≠ Category.unhandled then
    applyEscalationResult state
      (escalationAgent.generate_clarification_request state.query).toHandler
  else
    applyEscalationResult state
      (escalationAgent.escalate now state.query state.category state.confidence
        state.reasoning).toHandler

/-- `CustomerSupportWorkflow._route_query` (langgraph_workflow.py lines
159-182): unhandled category first, then the 0.7 confidence threshold,
otherwise the RAG path. -/
def route_query (state : WorkflowState) : String :=
  if state.category = Category.unhandled then "escalate"
  else if state.confidence < mkRat 7 10 then "escalate"
  else "rag"

/-- `CustomerSupportWorkflow.process_query` (langgraph_workflow.py lines
184-222) composed with the graph of `_build_graph` (lines 66-94): classifier
entry node, conditional edge mapping "rag" to the RAG responder node and
"escalate" to the escalation node, both terminal. -/
def process_query (chain : String → Except String QueryClassification)
    (retrieve : String → Nat → Except String (List String))
    (generate : PromptKind → String → String → Except String String)
    (now : String) (query : String) : WorkflowState :=
  if route_query (classifier_node chain (initialState query)) = "rag" then
    rag_responder_node retrieve generate (classifier_node chain (initialState query))
  else
    escalation_node now (classifier_node chain (initialState query))

/-- The `ChatResponse` pydantic model of api_server.py (lines 97-155). -/
structure ChatResponse where
  response : String
  category : Category
  confidence : ℚ
  reasoning : String
  node_executed : String
  requires_escalation : Bool
  retrieved_docs : Option (List String)
  timestamp : String
  session_id : Option String
deriving DecidableEq

/-- The `POST /api/chat` handler `chat` (api_server.py lines 198-258): the
exposed operation.  It runs `workflow.process_query(request.query)` — the
session id is never passed into the workflow — and builds the response,
echoing `request.session_id` back unchanged; `now` stands for the response
timestamp default. -/
def chat (chain : String → Except String QueryClassification)
    (retrieve : String → Nat → Except String (List String))
    (generate : PromptKind → String → String → Except String String)
    (now : String) (query : String) (session_id : Option String) : ChatResponse :=
  let result := process_query chain retrieve generate now query
  { response := result.response
    category := result.category
    confidence := result.confidence
    reasoning := result.reasoning
    node_executed := result.node_executed
    requires_escalation := result.requires_escalation
    retrieved_docs := some result.retrieved_docs
    timestamp := now
    session_id := session_id }

/-- Helper: the escalation node never touches `retrieved_docs`. -/
theorem escalation_node_keeps_retrieved_docs (now : String) (s : WorkflowState) :
    (escalation_node now s).retrieved_docs = s.retrieved_docs := by
  unfold escalation_node
  split <;> rfl

/-- Helper: the escalation node always reports itself as the executed node. -/
theorem escalation_node_executed (now : String) (s : WorkflowState) :
    (escalation_node now s).node_executed = "escalation" := by
  unfold escalation_node
  split <;> rfl

/-- C1: `_route_query` is total and deterministic over (category, confidence):
it returns "escalate" whenever the category is unhandled (checked first, so
for every confidence), otherwise it returns "escalate" iff confidence < 0.7
and "rag" (the respond path) otherwise. -/
theorem route_query_spec (s : WorkflowState) :
    (mkRat 7 10 : ℚ) = 7/10 ∧
    (route_query s = "escalate" ∨ route_query s = "rag") ∧
    (s.category = Category.unhandled → route_query s = "escalate") ∧
    (s.category ≠ Category.unhandled →
      (route_query s = "escalate" ↔ s.confidence < mkRat 7 10)) ∧
    (s.category ≠ Category.unhandled → ¬ s.confidence < mkRat 7 10 →
      route_query s = "rag") := by
  refine ⟨by norm_num [mkRat, Rat.normalize], ?_⟩
  unfold route_query
  by_cases h1 : s.category = Category.unhandled
  · simp [h1]
  · by_cases h2 : s.confidence < mkRat 7 10 <;> simp [h1, h2]

/-- Witness for C1 at category = unhandled, confidence = 0.9. -/
theorem route_query_spec_witness :
    route_query
      { initialState "q" with category := Category.unhandled, confidence := mkRat 9 10 } =
      "escalate" :=
  (route_query_spec _).2.2.1 rfl

/-- C2: `classify` makes exactly one backend attempt per call (the call
counter always advances by one), and on any backend error it does not
propagate the error but returns category = unhandled, confidence = 0.0 and
reasoning "Classification error: <detail>". -/
theorem classify_error_fallback (chain : String → Except String QueryClassification)
    (query : String) (calls : Nat) :
    (ClassifierAgent.classify chain query calls).2 = calls + 1 ∧
    (∀ e, chain query = Except.error e →
      (ClassifierAgent.classify chain query calls).1 =
        ⟨Category.unhandled, 0, "Classification error: " ++ e⟩) := by
  constructor
  · unfold ClassifierAgent.classify
    cases chain query <;> rfl
  · intro e he
    unfold ClassifierAgent.classify
    rw [he]

/-- Witness for C2 on a backend that throws "boom". -/
theorem classify_error_fallback_witness :
    (ClassifierAgent.classify (fun _ => Except.error "boom") "hello" 0).1 =
      ⟨Category.unhandled, 0, "Classification error: " ++ "boom"⟩ :=
  (classify_error_fallback (fun _ => Except.error "boom") "hello" 0).2 "boom" rfl

/-- C3: on the escalate path, a state with confidence in [0, 0.5) and a
category other than unhandled is handled by the clarification sub-behavior,
whose result has needs_clarification = true and requires_escalation = false
(and the merged state has requires_escalation = false); every other state on
the escalate path is handled by the human-handoff sub-behavior `escalate`. -/
theorem escalation_clarify_spec (now : String) (s : WorkflowState)
    (_h0 : 0 ≤ s.confidence) (h1 : s.confidence < mkRat 1 2)
    (h2 : s.category ≠ Category.unhandled) :
    (mkRat 1 2 : ℚ) = 1/2 ∧
    escalation_node now s =
      applyEscalationResult s
        (escalationAgent.generate_clarification_request s.query).toHandler ∧
    (escalationAgent.generate_clarification_request s.query).needs_clarification = true ∧
    (escalationAgent.generate_clarification_request s.query).requires_escalation = false ∧
    (escalation_node now s).requires_escalation = false ∧
    (∀ t : WorkflowState, route_query t = "escalate" →
      ¬(t.confidence < mkRat 1 2 ∧ t.category ≠ Category.unhandled) →
      escalation_node now t =
        applyEscalationResult t
          (escalationAgent.escalate now t.query t.category t.confidence
            t.reasoning).toHandler) := by
  have hcond : s.confidence < mkRat 1 2 ∧ s.category ≠ Category.unhandled := ⟨h1, h2⟩
  refine ⟨by norm_num [mkRat, Rat.normalize], ?_, rfl, rfl, ?_, ?_⟩
  · unfold escalation_node
    rw [if_pos hcond]
  · unfold escalation_node
    rw [if_pos hcond]
    rfl
  · intro t _ hnot
    unfold escalation_node
    rw [if_neg hnot]

/-- Witness for C3 at category = general, confidence = 0.3. -/
theorem escalation_clarify_spec_witness :
    (escalation_node "t0"
      { initialState "The thing is broken" with
        category := Category.general, confidence := mkRat 3 10 }).requires_escalation = false :=
  (escalation_clarify_spec "t0" _ (by decide) (by decide) (by decide)).2.2.2.2.1

/-- C4: every `escalate` result has requires_escalation = true and an
escalation log holding exactly timestamp, query, category, confidence,
reasoning and status = "escalated"; its reason is selected unhandled-first
("requires human assistance"), then by the 0.7 threshold ("needs
clarification"), otherwise "needs specialized support", and the selected
reason is interpolated into the response message. -/
theorem escalate_spec (now query : String) (category : Category) (confidence : ℚ)
    (reasoning : String) :
    (escalationAgent.escalate now query category confidence reasoning).requires_escalation =
      true ∧
    (escalationAgent.escalate now query category confidence reasoning).escalation_log =
      ⟨now, query, category, confidence, reasoning, "escalated"⟩ ∧
    (escalationAgent.escalate now query category confidence reasoning).response =
      escalationAgent.escalateResponse query
        (EscalationAgent.escalationReason category confidence) ∧
    (mkRat 7 10 : ℚ) = 7/10 ∧
    (category = Category.unhandled →
      EscalationAgent.escalationReason category confidence =
        "This query requires human assistance") ∧
    (category ≠ Category.unhandled → confidence < mkRat 7 10 →
      EscalationAgent.escalationReason category confidence =
        "The query needs clarification") ∧
    (category ≠ Category.unhandled → ¬ confidence < mkRat 7 10 →
      EscalationAgent.escalationReason category confidence =
        "This request needs specialized support") := by
  refine ⟨rfl, rfl, rfl, by norm_num [mkRat, Rat.normalize], ?_, ?_, ?_⟩
  · intro h
    unfold EscalationAgent.escalationReason
    rw [if_pos h]
  · intro h hc
    unfold EscalationAgent.escalationReason
    rw [if_neg h, if_pos hc]
  · intro h hc
    unfold EscalationAgent.escalationReason
    rw [if_neg h, if_neg hc]

/-- Witness for C4 at an unhandled query with confidence 0.95. -/
theorem escalate_spec_witness :
    (escalationAgent.escalate "t0" "q" Category.unhandled (mkRat 95 100)
      "Inappropriate request").requires_escalation = true ∧
    EscalationAgent.escalationReason Category.unhandled (mkRat 95 100) =
      "This query requires human assistance" :=
  ⟨(escalate_spec "t0" "q" Category.unhandled (mkRat 95 100) "Inappropriate request").1,
   (escalate_spec "t0" "q" Category.unhandled (mkRat 95 100)
      "Inappropriate request").2.2.2.2.1 rfl⟩

/-- C5: whenever retrieval or generation fails inside `respond`, the result
is the fixed apology (which directs the user to the support email), with
success = false, retrieved_docs = [] and num_docs = 0; the underlying error
string is retained under `error` and the function returns a total value
rather than raising. -/
theorem respond_failure_spec (retrieve : String → Nat → Except String (List String))
    (generate : PromptKind → String → String → Except String String)
    (query : String) (category : Category) (e : String)
    (h : respondAttempt retrieve generate query category = Except.error e) :
    RAGResponder.respond retrieve generate query category =
      { response := ragApology
        retrieved_docs := []
        num_docs := 0
        success := false
        error := some e } ∧
    ragApology =
      "I apologize, but I encountered an error processing your request. Please contact "
        ++ "support@techgear.com" := by
  constructor
  · unfold RAGResponder.respond
    rw [h]
  · rfl

/-- Witness for C5 on a retriever that fails with "db down". -/
theorem respond_failure_spec_witness :
    RAGResponder.respond (fun _ _ => Except.error "db down")
      (fun _ _ _ => Except.ok "x") "q" Category.products =
      { response := ragApology
        retrieved_docs := []
        num_docs := 0
        success := false
        error := some "db down" } :=
  (respond_failure_spec (fun _ _ => Except.error "db down")
    (fun _ _ _ => Except.ok "x") "q" Category.products "db down" rfl).1

set_option maxRecDepth 8000 in
/-- C6 counterexample: the preview of a retrieved fragment is its first
at-most-200 characters with "..." appended, so for the fragment "abc" the
preview is "abc...", of length 6 rather than the fixed length 200; moreover
when generation fails after a successful retrieval, retrieved_docs is []
rather than holding the previews, so the previews are not independent of
generation success. -/
theorem respond_docs_counterexample :
    (RAGResponder.respond (fun _ _ => Except.ok ["abc"])
      (fun _ _ _ => Except.ok "answer") "q" Category.products).retrieved_docs = ["abc..."] ∧
    ("abc..." : String).length = 6 ∧
    (RAGResponder.respond (fun _ _ => Except.ok ["abc"])
      (fun _ _ _ => Except.error "generation down") "q"
        Category.products).retrieved_docs = [] := by
  refine ⟨by decide, by decide, rfl⟩

/-- C6 (amended): the responder requests the top K = 4 fragments from the
retrieval capability; when retrieval and generation both succeed,
retrieved_docs holds, for each fragment, its first at-most-200 characters
followed by "..." (and num_docs counts the fragments); when the attempt
fails, retrieved_docs is []. -/
theorem respond_docs_spec (retrieve : String → Nat → Except String (List String))
    (generate : PromptKind → String → String → Except String String)
    (query : String) (category : Category) :
    RAG_K = 4 ∧
    (∀ docs response, retrieve query RAG_K = Except.ok docs →
      generate (RAGResponder.selectPrompt category) (formatDocs docs) query =
        Except.ok response →
      (RAGResponder.respond retrieve generate query category).retrieved_docs =
        docs.map (fun doc => doc.take 200 ++ "...") ∧
      (RAGResponder.respond retrieve generate query category).num_docs = docs.length) ∧
    (∀ e, respondAttempt retrieve generate query category = Except.error e →
      (RAGResponder.respond retrieve generate query category).retrieved_docs = []) := by
  refine ⟨rfl, ?_, ?_⟩
  · intro docs response hr hg
    have hatt : respondAttempt retrieve generate query category =
        Except.ok (docs, response) := by
      unfold respondAttempt
      rw [hr]
      simp [hg]
    unfold RAGResponder.respond
    rw [hatt]
    exact ⟨rfl, rfl⟩
  · intro e he
    unfold RAGResponder.respond
    rw [he]

/-- Witness for C6 on a retriever returning one fragment "abc" and a
generator returning "answer". -/
theorem respond_docs_spec_witness :
    (RAGResponder.respond (fun _ _ => Except.ok ["abc"])
      (fun _ _ _ => Except.ok "answer") "q" Category.general).retrieved_docs =
      (["abc"] : List String).map (fun doc => doc.take 200 ++ "...") :=
  ((respond_docs_spec (fun _ _ => Except.ok ["abc"]) (fun _ _ _ => Except.ok "answer")
    "q" Category.general).2.1 ["abc"] "answer" rfl rfl).1

/-- C7 counterexample: a completed result on the clarification sub-path
(category = general, confidence = 0.3) has retrieved_docs = [] and
escalation_log = {} at the same time, so it is not the case that exactly one
of the two is populated. -/
theorem result_exclusivity_counterexample :
    (process_query (fun _ => Except.ok ⟨Category.general, mkRat 3 10, "Too vague"⟩)
      (fun _ _ => Except.ok []) (fun _ _ _ => Except.ok "") "t0"
      "How much?").node_executed = "escalation" ∧
    (process_query (fun _ => Except.ok ⟨Category.general, mkRat 3 10, "Too vague"⟩)
      (fun _ _ => Except.ok []) (fun _ _ _ => Except.ok "") "t0"
      "How much?").retrieved_docs = [] ∧
    (process_query (fun _ => Except.ok ⟨Category.general, mkRat 3 10, "Too vague"⟩)
      (fun _ _ => Except.ok []) (fun _ _ _ => Except.ok "") "t0"
      "How much?").escalation_log = none := by
  refine ⟨by decide, by decide, by decide⟩

/-- C7 (amended): every completed result of process_query has at most one of
retrieved_docs (non-empty) or escalation_log (non-empty) populated, and the
populated field is consistent with node_executed: non-empty retrieved_docs
only with "rag_responder" and a non-empty escalation_log only with
"escalation".  (On the clarification sub-path and on the RAG failure path
neither is populated.) -/
theorem result_exclusivity (chain : String → Except String QueryClassification)
    (retrieve : String → Nat → Except String (List String))
    (generate : PromptKind → String → String → Except String String)
    (now query : String) :
    ¬((process_query chain retrieve generate now query).retrieved_docs ≠ [] ∧
      (process_query chain retrieve generate now query).escalation_log ≠ none) ∧
    ((process_query chain retrieve generate now query).retrieved_docs ≠ [] →
      (process_query chain retrieve generate now query).node_executed =
        "rag_responder") ∧
    ((process_query chain retrieve generate now query).escalation_log ≠ none →
      (process_query chain retrieve generate now query).node_executed =
        "escalation") := by
  unfold process_query
  by_cases hroute : route_query (classifier_node chain (initialState query)) = "rag"
  · rw [if_pos hroute]
    have hlog : (rag_responder_node retrieve generate
        (classifier_node chain (initialState query))).escalation_log = none := rfl
    refine ⟨?_, fun _ => rfl, ?_⟩
    · rintro ⟨-, hne⟩
      exact hne hlog
    · intro hne
      exact absurd hlog hne
  · rw [if_neg hroute]
    have hdocs : (escalation_node now
        (classifier_node chain (initialState query))).retrieved_docs = [] :=
      (escalation_node_keeps_retrieved_docs now _).trans rfl
    refine ⟨?_, ?_, fun _ => escalation_node_executed now _⟩
    · rintro ⟨hne, -⟩
      exact hne hdocs
    · intro hne
      exact absurd hdocs hne

/-- Witness for C7 on an escalated query: a populated escalation_log comes
with node_executed = "escalation". -/
theorem result_exclusivity_witness :
    (process_query (fun _ => Except.ok ⟨Category.unhandled, mkRat 95 100, "Inappropriate"⟩)
      (fun _ _ => Except.ok []) (fun _ _ _ => Except.ok "") "t0"
      "hack this").node_executed = "escalation" :=
  (result_exclusivity (fun _ => Except.ok ⟨Category.unhandled, mkRat 95 100, "Inappropriate"⟩)
    (fun _ _ => Except.ok []) (fun _ _ _ => Except.ok "") "t0" "hack this").2.2 (by decide)

/-- C8: when the classification backend throws, classify degrades to
category = unhandled, confidence = 0, reasoning = "Classification error: "
followed by the detail; the router sends the state to the escalate path; the
workflow result comes from the escalation node with requires_escalation =
true and a response interpolating the reason "This query requires human
assistance". -/
theorem degradation_spec (chain : String → Except String QueryClassification)
    (retrieve : String → Nat → Except String (List String))
    (generate : PromptKind → String → String → Except String String)
    (now query e : String) (h : chain query = Except.error e) :
    (classifier_node chain (initialState query)).category = Category.unhandled ∧
    (classifier_node chain (initialState query)).confidence = 0 ∧
    (classifier_node chain (initialState query)).reasoning =
      "Classification error: " ++ e ∧
    route_query (classifier_node chain (initialState query)) = "escalate" ∧
    process_query chain retrieve generate now query =
      escalation_node now (classifier_node chain (initialState query)) ∧
    (process_query chain retrieve generate now query).requires_escalation = true ∧
    (process_query chain retrieve generate now query).response =
      escalationAgent.escalateResponse query "This query requires human assistance" := by
  have hclass : classifier_node chain (initialState query) =
      { initialState query with
        category := Category.unhandled
        confidence := 0
        reasoning := "Classification error: " ++ e
        node_executed := "classifier" } := by
    simp only [classifier_node, ClassifierAgent.classify, initialState, h]
  have hroute : route_query (classifier_node chain (initialState query)) = "escalate" := by
    rw [hclass]
    rfl
  have hne : ¬ route_query (classifier_node chain (initialState query)) = "rag" := by
    rw [hroute]
    decide
  have hpe : process_query chain retrieve generate now query =
      escalation_node now (classifier_node chain (initialState query)) := by
    unfold process_query
    rw [if_neg hne]
  refine ⟨by rw [hclass], by rw [hclass], by rw [hclass], hroute, hpe, ?_, ?_⟩
  · rw [hpe, hclass]
    rfl
  · rw [hpe, hclass]
    rfl

/-- Witness for C8 on a backend that times out. -/
theorem degradation_spec_witness :
    (process_query (fun _ => Except.error "timeout") (fun _ _ => Except.ok [])
      (fun _ _ _ => Except.ok "") "t0" "hello").requires_escalation = true :=
  (degradation_spec (fun _ => Except.error "timeout") (fun _ _ => Except.ok [])
    (fun _ _ _ => Except.ok "") "t0" "hello" "timeout" rfl).2.2.2.2.2.1

/-- C9: the exposed chat operation (api_server.py `chat`, realizing
`process_query(query, sessionId?)`) accepts an optional session id; two
calls differing only in the session id agree on every other field of the
result, and the session id is echoed back unchanged — it is never passed
into the workflow, so it cannot affect routing or any other field. -/
theorem session_id_noninterference (chain : String → Except String QueryClassification)
    (retrieve : String → Nat → Except String (List String))
    (generate : PromptKind → String → String → Except String String)
    (now query : String) (sid1 sid2 : Option String) :
    chat chain retrieve generate now query sid1 =
      { chat chain retrieve generate now query sid2 with session_id := sid1 } ∧
    (chat chain retrieve generate now query sid1).session_id = sid1 :=
  ⟨rfl, rfl⟩

/-- C10: on the clarification sub-path the escalation node copies only
response, node_executed, requires_escalation and escalation_log into the
state: the needs_clarification flag of the handler result is dropped (the
state schema has no such field), escalation_log stays the empty record, and
every other state field is unchanged. -/
theorem clarification_frame (now : String) (s : WorkflowState)
    (h1 : s.confidence < mkRat 1 2) (h2 : s.category ≠ Category.unhandled) :
    escalation_node now s =
      { s with
        response := (escalationAgent.generate_clarification_request s.query).response
        node_executed := "escalation"
        requires_escalation := false
        escalation_log := none } ∧
    (escalation_node now s).escalation_log = none ∧
    (escalation_node now s).query = s.query ∧
    (escalation_node now s).category = s.category ∧
    (escalation_node now s).confidence = s.confidence ∧
    (escalation_node now s).reasoning = s.reasoning ∧
    (escalation_node now s).retrieved_docs = s.retrieved_docs ∧
    (escalation_node now s).context = s.context := by
  have hcond : s.confidence < mkRat 1 2 ∧ s.category ≠ Category.unhandled := ⟨h1, h2⟩
  unfold escalation_node
  rw [if_pos hcond]
  exact ⟨rfl, rfl, rfl, rfl, rfl, rfl, rfl, rfl⟩

/-- Witness for C10 at category = general, confidence = 0.3. -/
theorem clarification_frame_witness :
    (escalation_node "t1"
      { initialState "How much?" with
        category := Category.general, confidence := mkRat 3 10 }).escalation_log = none :=
  (clarification_frame "t1" _ (by decide) (by decide)).2.1

end RAGApp
